import Mathlib

/-!
Verification development for the 8086 disassembler in `src/assembler.py`.

The Python source is shallowly embedded below.  Bytes are `Nat` values
(always < 256 in actual streams); optional bytes (Python `None`) are
`Option Nat`.  Python exceptions (TypeError on `None` arithmetic,
ValueError on unpacking a string into two variables) are modelled
explicitly as a `crash` outcome.  Output lines printed by the driver are
modelled as a list of events together with a flag telling whether the
run aborted with an unhandled exception.
-/

/-- The register lookup table `regtable` of the source: row 0 holds the
byte registers, row 1 the word registers. -/
def regtable : List (List String) :=
  [["al", "cl", "dl", "bl", "ah", "ch", "dh", "bh"],
   ["ax", "cx", "dx", "bx", "sp", "bp", "si", "di"]]

/-- The effective-address calculation table `eff_add_calc` of the source. -/
def eff_add_calc : List String :=
  ["bx + si", "bx + di", "bp + si", "bp + di", "si", "di", "bp", "bx"]

/-- Lookup `regtable[w][fld]`.  All call sites mask `w` to 1 bit and
`fld` to 3 bits, so the default is never used. -/
def regname (w fld : Nat) : String := (regtable.getD w []).getD fld ""

/-- Lookup `eff_add_calc[rm]`.  All call sites mask `rm` to 3 bits. -/
def effexpr (rm : Nat) : String := eff_add_calc.getD rm ""

/-- Truthiness of a Python integer: nonzero is true. -/
def pyTruthy (n : Nat) : Bool := n != 0

/-- Python string interpolation of an optional integer: `None` prints
as the text `None`. -/
def fmtOpt : Option Nat → String
  | none => "None"
  | some n => toString n

/-- Python `f-string` field `{n:04x}`: lowercase hexadecimal padded
with zeroes to at least 4 digits (here `n < 65536`, so exactly 4). -/
def hex4 (n : Nat) : String :=
  let ds := Nat.toDigits 16 n
  String.mk (List.replicate (4 - ds.length) '0' ++ ds)

/-- Embedding of `dec_reg2reg(b1, b2)` (source lines 17-34): decodes
register-to-register MOV/ADD/SUB/CMP from the opcode byte `b1` and the
ModRM byte `b2`. -/
def dec_reg2reg (b1 b2 : Nat) : String :=
  let dflag := (b1 &&& 0b00000010) >>> 1
  let wflag := b1 &&& 0b00000001
  let reg_field := (b2 &&& 0b00111000) >>> 3
  let rm_field := b2 &&& 0b00000111
  let op1 := regname wflag reg_field
  let op2 := regname wflag rm_field
  let opcode := (b1 &&& 0b11111100) >>> 2
  let dst := if pyTruthy dflag = true then op1 else op2
  let srcOp := if pyTruthy dflag = true then op2 else op1
  if opcode = 0b100010 then s!"mov {dst}, {srcOp}"
  else if opcode = 0b000000 then s!"add {dst}, {srcOp}"
  else if opcode = 0b001010 then s!"sub {dst}, {srcOp}"
  else if opcode = 0b001110 then s!"cmp {dst}, {srcOp}"
  else "Error: Invalid opcode"

/-- Embedding of `dec_i2reg(b1, b2, b3)` (source lines 37-54): decodes
the immediate-to-register MOV form (opcodes 0xB0-0xBF).  `b2`/`b3` are
`none` when the stream has no such byte (Python `None`). -/
def dec_i2reg (b1 : Nat) (b2 b3 : Option Nat) : String :=
  let wflag := (b1 &&& 0b00001000) >>> 3
  let reg := regname wflag (b1 &&& 0b00000111)
  if wflag = 0 then
    match b2 with
    | none => "Error: Missing immediate value"
    | some v =>
      let imm : Int := if v > 127 then (v : Int) - 256 else (v : Int)
      s!"mov {reg}, {imm}"
  else
    match b2, b3 with
    | some lo, some hi =>
      let u := (hi <<< 8) ||| lo
      let imm : Int := if u > 32767 then (u : Int) - 65536 else (u : Int)
      s!"mov {reg}, {imm}"
    | _, _ => "Error: Missing immediate word"

/-- Result of `imm2reg_alt`: the Python function either raises a
TypeError (`crash`, when it does arithmetic or comparison on `None`),
returns a bare error string (`errstr`), or returns a pair of the
instruction text and the instruction size (`ok`). -/
inductive AltResult where
  | crash
  | errstr (s : String)
  | ok (s : String) (size : Nat)
deriving DecidableEq

/-- Embedding of `imm2reg_alt(b1, b2, b3, b4, b5)` (source lines
56-87): the immediate-to-register-or-memory ALU family.  A `none` byte
used in bit arithmetic or an ordered comparison raises a Python
TypeError, modelled as `AltResult.crash`. -/
def imm2reg_alt (b1 : Nat) (b2 b3 b4 b5 : Option Nat) : AltResult :=
  let wflag := b1 &&& 0b00000001
  match b2 with
  | none => AltResult.crash
  | some b2v =>
    let instruction_code := (b2v &&& 0b00111000) >>> 3
    let rm := b2v &&& 0b00000111
    let md := (b2v &&& 0b11000000) >>> 6
    let instruction :=
      if instruction_code = 0b000 then "add"
      else if instruction_code = 0b101 then "sub"
      else if instruction_code = 0b111 then "cmp"
      else "Error"
    if instruction = "Error" then
      AltResult.errstr "Error: Invalid instruction code"
    else
      let base := effexpr rm
      let dest :=
        if md = 0b11 then regname wflag rm
        else if md = 0b00 then s!"byte [{base}]"
        else base
      if md = 0b01 ∨ md = 0b10 then
        let dispOpt : Option Nat :=
          if md = 0b01 then b3
          else
            match b4, b3 with
            | some hb, some lb => some ((hb <<< 8) ||| lb)
            | _, _ => none
        match dispOpt with
        | none => AltResult.crash
        | some d0 =>
          let d1 : Int := if d0 > 127 ∧ md = 0b01 then (d0 : Int) - 256 else (d0 : Int)
          let d2 : Int := if d1 > 32767 ∧ md = 0b10 then d1 - 65536 else d1
          let dest2 :=
            if pyTruthy wflag = true then s!"word [{dest} + {d2}]"
            else s!"byte [{dest} + {d2}]"
          let imm := if md = 0b01 ∧ b5 = none then b4 else b5
          let immS := fmtOpt imm
          let instr_size := if md = 0b01 then 4 else 5
          AltResult.ok s!"{instruction} {dest2}, {immS}" instr_size
      else
        let immS := fmtOpt b3
        AltResult.ok s!"{instruction} {dest}, {immS}" 3

/-- The condition of `if opcode == 0b0000010 or 0b0010110:` at source
line 103.  Python's `or` keeps the first truthy operand, so as an `if`
condition this is the truthiness of `opcode == 2` or of the literal 22. -/
def imm2acc_cond (opcode : Nat) : Bool :=
  (opcode == 0b0000010) || pyTruthy 0b0010110

/-- Embedding of `imm2acc(b1, b2, b3)` (source lines 89-120): the
immediate-to-accumulator ALU family. -/
def imm2acc (b1 : Nat) (b2 b3 : Option Nat) : String :=
  let wflag := b1 &&& 0b00000001
  let dest := regname wflag 0
  let opcode := (b1 &&& 0b11111110) >>> 1
  let instruction :=
    if opcode = 0b0000010 then "add"
    else if opcode = 0b0010110 then "sub"
    else "cmp"
  if imm2acc_cond opcode = true then
    if wflag = 0 then
      match b2 with
      | none => "Error: Missing immediate value"
      | some v =>
        let imm : Int := if v > 127 then (v : Int) - 256 else (v : Int)
        s!"{instruction} {dest}, {imm}"
    else
      match b2, b3 with
      | some lo, some hi =>
        let u := (hi <<< 8) ||| lo
        let imm : Int := if u > 32767 then (u : Int) - 65536 else (u : Int)
        s!"{instruction} {dest}, {imm}"
      | _, _ => "Error: Missing immediate word"
  else
    let immS := fmtOpt b2
    s!"{instruction} {dest}, {immS}"

/-- The body of `imm2acc` with only the signed-immediate path, i.e.
what the source computes when the line-103 guard is taken.  Used to
state that the alternative `imm = b2` branch is unreachable. -/
def imm2acc_signedOnly (b1 : Nat) (b2 b3 : Option Nat) : String :=
  let wflag := b1 &&& 0b00000001
  let dest := regname wflag 0
  let opcode := (b1 &&& 0b11111110) >>> 1
  let instruction :=
    if opcode = 0b0000010 then "add"
    else if opcode = 0b0010110 then "sub"
    else "cmp"
  if wflag = 0 then
    match b2 with
    | none => "Error: Missing immediate value"
    | some v =>
      let imm : Int := if v > 127 then (v : Int) - 256 else (v : Int)
      s!"{instruction} {dest}, {imm}"
  else
    match b2, b3 with
    | some lo, some hi =>
      let u := (hi <<< 8) ||| lo
      let imm : Int := if u > 32767 then (u : Int) - 65536 else (u : Int)
      s!"{instruction} {dest}, {imm}"
    | _, _ => "Error: Missing immediate word"

/-- Embedding of `dec_modrm_instr(b1, b2, b3, b4)` (source lines
130-176): register/memory ADD, SUB, CMP with effective-address
resolution.  Error returns of the source are the same bare strings. -/
def dec_modrm_instr (b1 b2 : Nat) (b3 b4 : Option Nat) : String :=
  let dflag := (b1 &&& 0b00000010) >>> 1
  let wflag := b1 &&& 0b00000001
  let reg_field := (b2 &&& 0b00111000) >>> 3
  let rm := b2 &&& 0b00000111
  let md := (b2 &&& 0b11000000) >>> 6
  let op1 := regname wflag reg_field
  let opcode := (b1 &&& 0b11111100) >>> 2
  if opcode = 0b000000 ∨ opcode = 0b001010 ∨ opcode = 0b001110 then
    let instruction :=
      if opcode = 0b000000 then "add"
      else if opcode = 0b001010 then "sub"
      else "cmp"
    let eaRes : Except String String :=
      if md = 0b00 then
        if rm = 0b110 then
          match b3, b4 with
          | some lo, some hi =>
            let addr := (hi <<< 8) ||| lo
            let h4 := hex4 addr
            Except.ok s!"[0x{h4}]"
          | _, _ => Except.error "Error: Missing direct address bytes"
        else
          let base := effexpr rm
          Except.ok s!"[{base}]"
      else if md = 0b01 then
        match b3 with
        | none => Except.error "Error: Missing 8-bit displacement"
        | some v =>
          let disp : Int := if v < 128 then (v : Int) else (v : Int) - 256
          let base := effexpr rm
          Except.ok s!"[{base} + {disp}]"
      else if md = 0b10 then
        match b3, b4 with
        | some lo, some hi =>
          let d0 := (hi <<< 8) ||| lo
          let disp : Int := if d0 > 32767 then (d0 : Int) - 65536 else (d0 : Int)
          let base := effexpr rm
          Except.ok s!"{base} + {disp}"
        | _, _ => Except.error "Error: Missing 16-bit displacement"
      else
        Except.error "Error: mod=3 (register addressing) should be handled elsewhere"
    match eaRes with
    | Except.error e => e
    | Except.ok ea =>
      let dst := if pyTruthy dflag = true then op1 else ea
      let srcOp := if pyTruthy dflag = true then ea else op1
      s!"{instruction} {dst}, {srcOp}"
  else "Error: Invalid opcode"

/-- One observable output of the decode driver `disassemble` (source
lines 179-251): a decoded (or error-text) line together with the
consumed size, the `Error: Missing MODRM byte` report that precedes a
`break`, or the unknown-opcode report for byte `b` at index `i`. -/
inductive Event where
  | decoded (instr : String) (size : Nat)
  | missingModrm
  | unknown (b i : Nat)
deriving DecidableEq

/-- Outcome of one iteration of the driver loop: stop with a final
event (the `break` after `Error: Missing MODRM byte`), abort with an
unhandled Python exception, or emit an event and advance the cursor by
`size` bytes. -/
inductive StepResult where
  | halt (e : Event)
  | crash
  | cont (e : Event) (size : Nat)
deriving DecidableEq

/-- One iteration of the `while i < len(byte_list)` loop of
`disassemble` (source lines 184-251), at cursor `i`. -/
def decodeStep (bytes : List Nat) (i : Nat) : StepResult :=
  let b1 := bytes.getD i 0
  let top6 := (b1 &&& 0b11111100) >>> 2
  if top6 = 0b000000 ∨ top6 = 0b001010 ∨ top6 = 0b001110 then
    if i + 1 ≥ bytes.length then StepResult.halt Event.missingModrm
    else
      let b2 := bytes.getD (i + 1) 0
      let md := (b2 &&& 0b11000000) >>> 6
      let rm := b2 &&& 0b00000111
      if md = 0b11 then
        StepResult.cont (Event.decoded (dec_reg2reg b1 b2) 2) 2
      else
        let displacement_size :=
          if md = 0b00 ∧ rm = 0b110 then 2
          else if md = 0b01 then 1
          else if md = 0b10 then 2
          else 0
        let b3 := if i + 2 < bytes.length then some (bytes.getD (i + 2) 0) else none
        let b4 := if i + 3 < bytes.length then some (bytes.getD (i + 3) 0) else none
        let instr := dec_modrm_instr b1 b2 b3 b4
        StepResult.cont (Event.decoded instr (2 + displacement_size)) (2 + displacement_size)
  else if top6 = 0b100000 then
    let b2 := if i + 1 < bytes.length then some (bytes.getD (i + 1) 0) else none
    let b3 := if i + 2 < bytes.length then some (bytes.getD (i + 2) 0) else none
    let b4 := if i + 3 < bytes.length then some (bytes.getD (i + 3) 0) else none
    let b5 := if i + 4 < bytes.length then some (bytes.getD (i + 4) 0) else none
    match imm2reg_alt b1 b2 b3 b4 b5 with
    | AltResult.crash => StepResult.crash
    | AltResult.errstr _ => StepResult.crash
    | AltResult.ok s n => StepResult.cont (Event.decoded s n) n
  else
    let top7 := (b1 &&& 0b11111110) >>> 1
    if top7 = 0b0000010 ∨ top7 = 0b0010110 ∨ top7 = 0b0011110 then
      let wflag := b1 &&& 0b00000001
      let b2 := if i + 1 < bytes.length then some (bytes.getD (i + 1) 0) else none
      let b3 := if i + 2 < bytes.length then some (bytes.getD (i + 2) 0) else none
      let instr_size := if pyTruthy wflag = true then 3 else 2
      StepResult.cont (Event.decoded (imm2acc b1 b2 b3) instr_size) instr_size
    else
      StepResult.cont (Event.unknown b1 i) 1

/-- Fuelled iteration of the driver loop: returns the emitted events
and whether the run aborted with an unhandled exception.  Each
iteration advances the cursor by at least one byte, so fuel equal to
the stream length always suffices (proved below). -/
def driveAux : Nat → List Nat → Nat → List Event × Bool
  | 0, _, _ => ([], false)
  | fuel + 1, bytes, i =>
    if i < bytes.length then
      match decodeStep bytes i with
      | StepResult.halt e => ([e], false)
      | StepResult.crash => ([], true)
      | StepResult.cont e n =>
        let rest := driveAux fuel bytes (i + n)
        (e :: rest.1, rest.2)
    else ([], false)

/-- Embedding of the driver `disassemble` (source lines 179-251) on an
in-memory byte list. -/
def disassemble (bytes : List Nat) : List Event × Bool :=
  driveAux bytes.length bytes 0

/-! ## Helper lemmas -/

set_option maxHeartbeats 2000000 in
/-- A successful `imm2reg_alt` result always reports a positive size
(it is 3, 4 or 5). -/
theorem imm2reg_alt_size_pos {b1 : Nat} {b2 b3 b4 b5 : Option Nat} {s : String} {n : Nat}
    (h : imm2reg_alt b1 b2 b3 b4 b5 = AltResult.ok s n) : 1 ≤ n := by
  cases b2 with
  | none =>
    rw [imm2reg_alt] at h
    exact AltResult.noConfusion h
  | some v =>
    cases b3 <;> cases b4 <;> simp only [imm2reg_alt] at h <;> repeat' split at h
    all_goals first
      | exact AltResult.noConfusion h
      | (obtain ⟨h1, h2⟩ := h; omega)

set_option maxHeartbeats 2000000 in
/-- Every continuing step of the driver loop advances the cursor by at
least one byte. -/
theorem decodeStep_cont_pos {bytes : List Nat} {i : Nat} {e : Event} {n : Nat}
    (h : decodeStep bytes i = StepResult.cont e n) : 1 ≤ n := by
  simp only [decodeStep] at h
  repeat' split at h
  all_goals (try exact StepResult.noConfusion h)
  all_goals first
    | (injection h with h1 h2; omega)
    | (injection h with h1 h2; subst h2; exact imm2reg_alt_size_pos (by assumption))

/-- Once the cursor has reached the stream length the driver produces
nothing more, whatever fuel remains. -/
theorem driveAux_out (fuel : Nat) (bytes : List Nat) (i : Nat) (h : bytes.length ≤ i) :
    driveAux fuel bytes i = ([], false) := by
  cases fuel with
  | zero => rfl
  | succ f =>
    unfold driveAux
    rw [if_neg (by omega)]

/-- Fuel irrelevance: any two fuel amounts of at least `length - i`
give the same run, i.e. the loop completes within `length - i`
iterations. -/
theorem driveAux_congr : ∀ (f g : Nat) (bytes : List Nat) (i : Nat),
    bytes.length - i ≤ f → bytes.length - i ≤ g →
    driveAux f bytes i = driveAux g bytes i := by
  intro f
  induction f with
  | zero =>
    intro g bytes i hf hg
    rw [driveAux_out 0 bytes i (by omega), driveAux_out g bytes i (by omega)]
  | succ f ih =>
    intro g bytes i hf hg
    by_cases hi : i < bytes.length
    · cases g with
      | zero => omega
      | succ g' =>
        unfold driveAux
        rw [if_pos hi, if_pos hi]
        cases hstep : decodeStep bytes i with
        | halt e => rfl
        | crash => rfl
        | cont e n =>
          have hn := decodeStep_cont_pos hstep
          have hrec := ih g' bytes (i + n) (by omega) (by omega)
          simp [hrec]
    · rw [driveAux_out _ _ _ (by omega), driveAux_out _ _ _ (by omega)]

/-! ## Claim theorems -/

/-- C1: the claim expects the driver to classify `[0x89, 0xD8]` as a
register-to-register MOV and emit `mov ax, bx`, consuming 2 bytes.  The
driver's dispatch list (source line 189) holds only the ADD/SUB/CMP
patterns and omits MOV's `100010`, so both bytes are reported as
unknown opcodes and the cursor advances one byte at a time; the helper
`dec_reg2reg`, which the driver never reaches on this input, would
produce exactly `mov ax, bx`. -/
theorem c1_mov_reg2reg_not_dispatched :
    disassemble [0x89, 0xD8] = ([Event.unknown 0x89 0, Event.unknown 0xD8 1], false) ∧
    dec_reg2reg 0x89 0xD8 = "mov ax, bx" := by
  constructor
  · decide
  · decide

/-- C2: the claim expects the driver to decode `[0xB1, 0x0C]` to
`mov cl, 12`.  No branch of the driver dispatches the `1011....`
immediate-to-register MOV family (`dec_i2reg` is never called), so both
bytes are reported as unknown opcodes; `dec_i2reg` itself would produce
exactly `mov cl, 12`. -/
theorem c2_mov_imm2reg_not_dispatched :
    disassemble [0xB1, 0x0C] = ([Event.unknown 0xB1 0, Event.unknown 0x0C 1], false) ∧
    dec_i2reg 0xB1 (some 0x0C) none = "mov cl, 12" := by
  constructor
  · decide
  · decide

/-- C3: the claim says mod=00 with rm=110 always consumes 2 extra
bytes, and that `[0x83, 0x06, 0x00, 0x00, 0x07]` decodes with total
length 5 and immediate 7.  In the immediate-to-register-or-memory
family `imm2reg_alt` has no direct-address special case: it consumes
only 3 bytes, renders `byte [bp]`, and takes the immediate from the
first extra byte (0, not 7); the driver then decodes the remaining two
bytes as a second instruction. -/
theorem c3_direct_address_ignored :
    disassemble [0x83, 0x06, 0x00, 0x00, 0x07] =
      ([Event.decoded "add byte [bp], 0" 3, Event.decoded "add [bx], al" 2], false) ∧
    imm2reg_alt 0x83 (some 0x06) (some 0x00) (some 0x00) (some 0x07) =
      AltResult.ok "add byte [bp], 0" 3 := by
  constructor
  · decide
  · decide

/-- C4: the claim says every decode routine sign-decodes immediates
(8-bit value 255 becomes -1).  `imm2reg_alt` does not: on
`[0x80, 0xC0, 0xFF]` it emits the raw byte 255.  `dec_i2reg` (and
`imm2acc`) do apply the two's-complement rule, shown for contrast. -/
theorem c4_immediate_sign_decoding :
    imm2reg_alt 0x80 (some 0xC0) (some 0xFF) none none = AltResult.ok "add al, 255" 3 ∧
    dec_i2reg 0xB0 (some 0xFF) none = "mov al, -1" ∧
    imm2acc 0x3D (some 0x34) (some 0xFF) = "cmp ax, -204" := by
  refine ⟨?_, ?_, ?_⟩
  · decide
  · decide
  · decide

/-- C5: the claim says the immediate-to-register-or-memory family's
length (3, 4 or 5) depends on both the addressing mode and the word
flag, the immediate taking 1 or 2 bytes by the word flag.  In the code
the length depends on the addressing mode only and the immediate is
always a single byte: the word form `0x81 ... ` (w=1) gets the same
size 3 and the same single-byte immediate 52 as the byte form `0x80`. -/
theorem c5_imm_family_length_ignores_width :
    imm2reg_alt 0x81 (some 0xC3) (some 0x34) (some 0x12) none = AltResult.ok "add bx, 52" 3 ∧
    imm2reg_alt 0x80 (some 0xC3) (some 0x34) (some 0x12) none = AltResult.ok "add bl, 52" 3 := by
  constructor
  · decide
  · decide

/-- C6: the claim says an invalid 3-bit sub-opcode (e.g. bytes
`[0x80, 0x08]`) is a local fault after which the driver continues with
the rest of the stream.  In the code `imm2reg_alt` returns the bare
string `Error: Invalid instruction code`, which the driver immediately
tuple-unpacks (`instr, instr_size = ...`), raising a ValueError: the
whole decode aborts with no output instead of continuing. -/
theorem c6_invalid_subopcode_aborts :
    disassemble [0x80, 0x08] = ([], true) ∧
    imm2reg_alt 0x80 (some 0x08) none none none =
      AltResult.errstr "Error: Invalid instruction code" := by
  constructor
  · decide
  · decide

/-- C7: the claim says the single byte `[0x88]` yields a MissingBytes
fault and terminates.  Because the driver's dispatch list omits the MOV
pattern, `0x88` is instead reported as an unknown opcode (then the run
ends).  The MissingBytes path (`Error: Missing MODRM byte`, then
break) does exist, but only for the dispatched ADD/SUB/CMP patterns,
shown with the single byte `[0x00]`. -/
theorem c7_truncated_mov_is_unknown :
    disassemble [0x88] = ([Event.unknown 0x88 0], false) ∧
    disassemble [0x00] = ([Event.missingModrm], false) := by
  constructor
  · decide
  · decide

/-- C8 counterexample: the claim says every memory operand is rendered
bracketed and a zero displacement is omitted.  At `[0x01, 0x80, 0x00,
0x00]` (mod=10, zero displacement) `dec_modrm_instr` renders the memory
operand `bx + si + 0` with no bracket at all, and at mod=01 the zero
displacement is rendered rather than omitted. -/
theorem c8_rendering_counterexample :
    dec_modrm_instr 0x01 0x80 (some 0x00) (some 0x00) = "add bx + si + 0, ax" ∧
    ("add bx + si + 0, ax".data.contains '[') = false ∧
    dec_modrm_instr 0x01 0x40 (some 0x00) none = "add [bx + si + 0], ax" ∧
    "add [bx + si + 0], ax" ≠ "add [bx + si], ax" := by
  refine ⟨?_, ?_, ?_, ?_⟩
  · decide
  · decide
  · decide
  · decide

set_option maxRecDepth 20000 in
/-- C8 amended: across all rm values (and shown with zero
displacements, the case the original claim's omission clause is
about), memory operands are rendered bracketed in every decode path
except the register/memory routine's mod=10 form, which renders `base +
displacement` without brackets; the displacement term is absent only in
the no-displacement modes (mod=00 non-direct), and a present
displacement is always rendered, including zero. -/
theorem c8_memory_operand_rendering :
    ∀ rm : Nat, rm < 8 →
      (rm ≠ 6 → dec_modrm_instr 0x01 rm (some 0) none = "add [" ++ effexpr rm ++ "], ax") ∧
      dec_modrm_instr 0x01 0x06 (some 0x34) (some 0x12) = "add [0x1234], ax" ∧
      dec_modrm_instr 0x01 (0x40 + rm) (some 0) none = "add [" ++ effexpr rm ++ " + 0], ax" ∧
      dec_modrm_instr 0x01 (0x80 + rm) (some 0) (some 0) = "add " ++ effexpr rm ++ " + 0, ax" ∧
      imm2reg_alt 0x80 (some rm) (some 5) none none =
        AltResult.ok ("add byte [" ++ effexpr rm ++ "], 5") 3 ∧
      imm2reg_alt 0x80 (some (0x40 + rm)) (some 0) (some 7) none =
        AltResult.ok ("add byte [" ++ effexpr rm ++ " + 0], 7") 4 ∧
      imm2reg_alt 0x81 (some (0x80 + rm)) (some 0) (some 0) (some 9) =
        AltResult.ok ("add word [" ++ effexpr rm ++ " + 0], 9") 5 := by
  intro rm h
  interval_cases rm <;> decide

/-- C8 amended, witness: the amended statement applied at rm = 0. -/
theorem c8_memory_operand_rendering_witness :
    dec_modrm_instr 0x01 0 (some 0) none = "add [" ++ effexpr 0 ++ "], ax" ∧
    dec_modrm_instr 0x01 (0x80 + 0) (some 0) (some 0) = "add " ++ effexpr 0 ++ " + 0, ax" :=
  ⟨(c8_memory_operand_rendering 0 (by decide)).1 (by decide),
   (c8_memory_operand_rendering 0 (by decide)).2.2.2.1⟩

/-- C9: the guard at source line 103, `opcode == 0b0000010 or
0b0010110`, is truthy for every opcode because of operator precedence
(`or` with the nonzero literal 22), so the branch that would skip
signed immediate decoding is unreachable and `imm2acc` always takes the
two's-complement path, whichever of add/sub/cmp was selected. -/
theorem c9_acc_guard_always_true :
    ∀ (b1 : Nat) (b2 b3 : Option Nat),
      imm2acc_cond ((b1 &&& 0b11111110) >>> 1) = true ∧
      imm2acc b1 b2 b3 = imm2acc_signedOnly b1 b2 b3 := by
  have hc : ∀ o : Nat, imm2acc_cond o = true := by
    intro o
    rw [imm2acc_cond, show pyTruthy 0b0010110 = true from rfl, Bool.or_true]
  intro b1 b2 b3
  refine ⟨hc _, ?_⟩
  unfold imm2acc imm2acc_signedOnly
  simp only [hc, reduceIte]

/-- C10: the decode driver terminates on every finite input: once the
cursor reaches the stream length the run produces nothing more; every
continuing iteration advances the cursor by at least one byte; and any
fuel of at least `length - i` yields the same (finished) run, so the
loop completes within `length - i` iterations — in particular
`disassemble`, which supplies fuel `length`, always runs to
completion. -/
theorem c10_driver_terminates :
    ∀ (bytes : List Nat) (i fuel : Nat),
      (bytes.length ≤ i → driveAux fuel bytes i = ([], false)) ∧
      (∀ e n, decodeStep bytes i = StepResult.cont e n → 1 ≤ n) ∧
      (bytes.length - i ≤ fuel →
        driveAux fuel bytes i = driveAux (bytes.length - i) bytes i) := by
  intro bytes i fuel
  refine ⟨driveAux_out fuel bytes i, fun e n h => decodeStep_cont_pos h, fun hf => ?_⟩
  exact driveAux_congr fuel (bytes.length - i) bytes i hf (Nat.le_refl _)

/-- C10 witness: the termination facts applied to the concrete stream
`[0x88]`. -/
theorem c10_driver_terminates_witness :
    driveAux 3 [0x88] 1 = ([], false) ∧ (1 : Nat) ≤ 1 ∧
    driveAux 9 [0x88] 0 = driveAux ([0x88].length - 0) [0x88] 0 :=
  ⟨(c10_driver_terminates [0x88] 1 3).1 (by decide),
   (c10_driver_terminates [0x88] 0 3).2.1 (Event.unknown 0x88 0) 1 (by decide),
   (c10_driver_terminates [0x88] 0 9).2.2 (by decide)⟩
